import Mathlib

/-!
Verification of the queue-driven task dispatch and threshold-alerting engine
of the Locci Farm backend (src/server.js).

The embedding follows the JavaScript source closely:
* JavaScript numbers are modelled as rationals (`ℚ`); a value that may be
  `NaN` or absent (an unset environment variable read through `parseFloat`,
  a missing payload field) is an `Option ℚ` with `none` for the
  unset/NaN case.  Comparisons against `NaN` are `false`, and `NaN` and `0`
  are falsy in `x || d`.
* JavaScript strings are Lean `String`s; substring search and
  `String.prototype.replace` with a string pattern (which replaces only the
  FIRST occurrence) are implemented on the underlying character lists so
  that concrete instances evaluate inside the kernel.
* A thrown `TypeError` (reading a property of `undefined`) is modelled as
  `none` in an `Option` result.
-/

namespace LocciFarm

/-- Truthiness of a JavaScript number: every number except `0` (and `NaN`,
which the `Option.none` case covers elsewhere) is truthy. -/
def jsTruthyNum (q : ℚ) : Bool := decide (q ≠ 0)

/-- JavaScript `v || d` on a possibly-absent number: `NaN` (here `none`)
and `0` are falsy, every other number is returned as is. -/
def jsOrNum (v : Option ℚ) (d : ℚ) : ℚ :=
  match v with
  | none => d
  | some x => if x = 0 then d else x

/-- JavaScript `v || d` on a possibly-absent string: `undefined` (here
`none`) and the empty string are falsy. -/
def jsOrStr (v : Option String) (d : String) : String :=
  match v with
  | none => d
  | some s => if s = "" then d else s

/-- JavaScript `m < t` where `t` may be `NaN` (`none`): any comparison with
`NaN` is `false`. -/
def jsLtOpt (m : ℚ) (t : Option ℚ) : Bool :=
  match t with
  | none => false
  | some x => decide (m < x)

/-- Whether `pat` is a prefix of `s` (on character lists). -/
def listIsPrefixOf : List Char → List Char → Bool
  | [], _ => true
  | _ :: _, [] => false
  | a :: as, b :: bs => a == b && listIsPrefixOf as bs

/-- Whether `pat` occurs as a contiguous sublist of `s`. -/
def listOccurs (pat : List Char) : List Char → Bool
  | [] => listIsPrefixOf pat []
  | c :: rest => listIsPrefixOf pat (c :: rest) || listOccurs pat rest

/-- Whether the string `pat` occurs as a substring of `s`. -/
def strOccurs (pat s : String) : Bool := listOccurs pat.data s.data

/-- Replace the first occurrence of `pat` in `s` by `repl` (on character
lists).  An empty pattern leaves the list unchanged, which is all the uses
below need. -/
def listReplaceFirst (pat repl : List Char) : List Char → List Char
  | [] => []
  | c :: rest =>
    if listIsPrefixOf pat (c :: rest) then
      if pat.length == 0 then c :: rest
      else repl ++ (c :: rest).drop pat.length
    else c :: listReplaceFirst pat repl rest

/-- JavaScript `s.replace(pat, repl)` with a STRING pattern: only the first
occurrence of `pat` is replaced. -/
def strReplaceFirst (s pat repl : String) : String :=
  ⟨listReplaceFirst pat.data repl.data s.data⟩

/-- Rendering of a JavaScript number inside a template literal.  The exact
digit string is irrelevant to every property proved below; integers render
without a decimal point, as in JavaScript. -/
def jsNumToString (q : ℚ) : String :=
  if q.den = 1 then toString q.num else toString q

/-- `Number.prototype.toFixed(1)`, modelled on rationals: round to the
nearest tenth and render.  As with `jsNumToString`, the digit string itself
is not inspected by any property below. -/
def jsToFixed1 (q : ℚ) : String :=
  jsNumToString ((round (q * 10) : ℤ) / (10 : ℚ))

/-- `Number.prototype.toFixed(0)`: round to the nearest integer and
render. -/
def jsToFixed0 (q : ℚ) : String :=
  jsNumToString ((round q : ℤ) : ℚ)

/-- Interpolation of a possibly-`undefined` string into a template literal:
JavaScript renders `undefined` as the text `undefined`. -/
def interpStr (v : Option String) : String := v.getD "undefined"

/-- Interpolation of a possibly-`undefined` number into a template
literal. -/
def interpNum (v : Option ℚ) : String :=
  match v with
  | some q => jsNumToString q
  | none => "undefined"

/-- Interpolation of `v?.toFixed(1)` (optional chaining): `undefined` when
the field is absent. -/
def interpFixed1 (v : Option ℚ) : String :=
  match v with
  | some q => jsToFixed1 q
  | none => "undefined"

/-- The details mapping handed to `sendTaskNotification` (src/server.js).
Every field is optional, as in a JavaScript object; fields that no call
site and no template reads are omitted. -/
structure Details where
  farmId : Option String := none
  sensorType : Option String := none
  moistureLevel : Option ℚ := none
  temperature : Option ℚ := none
  humidity : Option ℚ := none
  zone : Option String := none
  reason : Option String := none
  duration : Option String := none
  beforeLevel : Option ℚ := none
  afterLevel : Option ℚ := none
  crop : Option String := none
  price : Option ℚ := none
  threshold : Option ℚ := none
  trend : Option String := none
  market : Option String := none
  recommendation : Option String := none
  equipment : Option String := none
  health : Option String := none
  warning : Option String := none
  forecast : Option String := none
  taskName : Option String := none
  status : Option String := none
  message : Option String := none
  systemsHealthy : Option Bool := none
  customMessage : Option String := none
  zonesChecked : Option ℕ := none
  zonesNeedingIrrigation : Option ℕ := none
  marketsChecked : Option ℕ := none
  equipmentChecked : Option ℕ := none
  alertsGenerated : Option ℕ := none
deriving DecidableEq

/-- The suffix appended to every rendered message (src/server.js line 651):
`" [Farm: " + (details.farmId || "farm-001") + "]"`. -/
def farmSuffix (d : Details) : String :=
  " [Farm: " ++ jsOrStr d.farmId "farm-001" ++ "]"

/-- The switch of `sendTaskNotification` (src/server.js lines 581-648),
before the farm suffix is appended.  `now` is the value of
`new Date().toLocaleTimeString()` at render time.  The result is `none`
exactly when the JavaScript code throws: the `irrigation_started` case
reads `details.reason.replace(...)` without a guard, a `TypeError` when
`reason` is absent. -/
def notificationBody (taskType : String) (d : Details) (now : String) : Option String :=
  if taskType = "sensor_data_collected" then
    some ("🌱 FARM UPDATE: Sensor data collected at " ++ now ++ ". Soil: "
      ++ interpFixed1 d.moistureLevel ++ "%, Weather: " ++ interpNum d.temperature ++ "°C")
  else if taskType = "irrigation_started" then
    (d.reason).map (fun r =>
      "💧 IRRIGATION ALERT: Auto-irrigation started in " ++ interpStr d.zone
        ++ ". Reason: " ++ strReplaceFirst r "_" " "
        ++ ". Duration: " ++ jsOrStr d.duration "30 min")
  else if taskType = "irrigation_completed" then
    some ("✅ IRRIGATION COMPLETE: " ++ interpStr d.zone ++ " watering finished. "
      ++ "Soil moisture improved from " ++ interpNum d.beforeLevel
      ++ "% to " ++ interpNum d.afterLevel ++ "%")
  else if taskType = "market_price_alert" then
    some ("📈 MARKET ALERT: " ++ interpStr d.crop ++ " price "
      ++ (if d.trend = some "up" then "increased" else "decreased") ++ " to "
      ++ interpNum d.price ++ " KES/kg in " ++ interpStr d.market ++ ". "
      ++ interpStr d.recommendation)
  else if taskType = "maintenance_required" then
    some ("🔧 MAINTENANCE ALERT: " ++ interpStr d.equipment ++ " requires attention. "
      ++ "Health: " ++ interpStr d.health
      ++ "%. Schedule maintenance soon to avoid breakdown.")
  else if taskType = "equipment_failure" then
    some ("🚨 URGENT: " ++ interpStr d.equipment ++ " has failed! "
      ++ "Immediate attention required. Contact technician: +254700123456")
  else if taskType = "weather_warning" then
    some ("🌦️ WEATHER WARNING: " ++ interpStr d.warning ++ " expected. "
      ++ "Take protective measures for crops. Updated forecast: " ++ interpStr d.forecast)
  else if taskType = "task_completed" then
    some ("✅ TASK COMPLETE: " ++ interpStr d.taskName ++ " finished successfully at "
      ++ now ++ ". " ++ "Status: " ++ interpStr d.status)
  else if taskType = "system_status" then
    some ("📊 SYSTEM UPDATE: " ++ interpStr d.message ++ ". " ++ "All systems "
      ++ (if d.systemsHealthy = some true then "operating normally" else "require attention")
      ++ ".")
  else
    some (jsOrStr d.customMessage ("📱 Farm notification: " ++ taskType))

/-- The full rendered message of `sendTaskNotification`: the switch body
followed by the farm suffix.  `none` models the thrown `TypeError` of the
unguarded `irrigation_started` case. -/
def sendTaskNotificationMessage (taskType : String) (d : Details) (now : String) :
    Option String :=
  (notificationBody taskType d now).map (fun m => m ++ farmSuffix d)

/-- The `send-sms` job payload that `sendTaskNotification` enqueues on the
notifications queue (src/server.js lines 653-659). -/
structure SmsJobPayload where
  phoneNumber : String
  message : String
  type : String
deriving DecidableEq

/-- Effect of `sendTaskNotification` (src/server.js lines 577-660): render
the message once, then enqueue exactly one `send-sms` job carrying it.
`none` models the rendering throwing (no job is enqueued then). -/
def sendTaskNotification (farmerPhone taskType : String) (d : Details) (now : String) :
    Option (List SmsJobPayload) :=
  (sendTaskNotificationMessage taskType d now).map
    (fun m => [{ phoneNumber := farmerPhone, message := m, type := taskType }])

/-! ## Task processors -/

/-- Payload of a `start-irrigation` follow-up job (the timestamp field is
dropped: no property reads it). -/
structure IrrigationJobPayload where
  farmId : String
  zone : String
  reason : String
  moistureLevel : ℚ
deriving DecidableEq

/-- The if-condition of the `collect-soil-moisture` processor, exactly as
written (src/server.js lines 249-252):
`moistureLevel < parseFloat(process.env.SOIL_MOISTURE_LOW_THRESHOLD) || 30`.
`<` binds tighter than `||`, so this is the comparison OR-ed with the
(truthy) literal `30`.  `envSoilLow` is the parsed environment variable,
`none` for unset/NaN. -/
def soilMoistureLowCond (envSoilLow : Option ℚ) (moistureLevel : ℚ) : Bool :=
  jsLtOpt moistureLevel envSoilLow || jsTruthyNum 30

/-- Follow-up jobs of the `collect-soil-moisture` processor (src/server.js
lines 248-259): one `start-irrigation` job when the condition holds. -/
def collectSoilMoistureFollowUps (envSoilLow : Option ℚ) (farmId : String)
    (moistureLevel : ℚ) : List IrrigationJobPayload :=
  if soilMoistureLowCond envSoilLow moistureLevel then
    [{ farmId := farmId, zone := "zone-a", reason := "low_soil_moisture",
       moistureLevel := moistureLevel }]
  else []

/-- Notification events of the `collect-soil-moisture` processor
(src/server.js lines 240-269): always one `sensor_data_collected` event,
and one `irrigation_started` event when the condition holds. -/
def collectSoilMoistureNotifications (envSoilLow : Option ℚ) (farmId sensorType : String)
    (moistureLevel temperature humidity : ℚ) : List (String × Details) :=
  ("sensor_data_collected",
    { farmId := some farmId, sensorType := some sensorType,
      moistureLevel := some moistureLevel, temperature := some temperature,
      humidity := some humidity }) ::
  (if soilMoistureLowCond envSoilLow moistureLevel then
    [("irrigation_started",
      { farmId := some farmId, zone := some "zone-a",
        reason := some "low_soil_moisture", moistureLevel := some moistureLevel,
        duration := some "30 minutes" })]
   else [])

/-- `beforeLevel` of the `start-irrigation` processor (src/server.js line
354): `moistureLevel || Math.random() * 40 + 20`.  `rand1` is the
`Math.random()` draw, a value in `[0, 1)`. -/
def startIrrigationBeforeLevel (moistureLevel : Option ℚ) (rand1 : ℚ) : ℚ :=
  match moistureLevel with
  | none => rand1 * 40 + 20
  | some m => if m = 0 then rand1 * 40 + 20 else m

/-- `afterLevel` of the `start-irrigation` processor (src/server.js line
355): `beforeLevel + Math.random() * 30 + 20`. -/
def startIrrigationAfterLevel (beforeLevel : ℚ) (rand2 : ℚ) : ℚ :=
  beforeLevel + rand2 * 30 + 20

/-- The `assess-irrigation-needs` loop (src/server.js lines 384-398): for
each zone paired with its simulated reading, compare against
`parseFloat(process.env.SOIL_MOISTURE_LOW_THRESHOLD) || 35` and collect
the `start-irrigation` follow-ups and the `zonesNeedingIrrigation`
counter, in iteration order. -/
def assessIrrigationNeeds (envSoilLow : Option ℚ) (farmId : String) :
    List (String × ℚ) → List IrrigationJobPayload × ℕ
  | [] => ([], 0)
  | z :: rest =>
    let r := assessIrrigationNeeds envSoilLow farmId rest
    if z.2 < jsOrNum envSoilLow 35 then
      ({ farmId := farmId, zone := z.1, reason := "scheduled_assessment",
         moistureLevel := z.2 } :: r.1, r.2 + 1)
    else r

/-- Notification events of the `assess-irrigation-needs` processor
(src/server.js lines 400-407): exactly one `task_completed` summary after
the loop. -/
def assessIrrigationNotifications (envSoilLow : Option ℚ) (farmId : String)
    (zoneReadings : List (String × ℚ)) : List (String × Details) :=
  [("task_completed",
    { farmId := some farmId, taskName := some "Irrigation Assessment",
      status := some (toString (assessIrrigationNeeds envSoilLow farmId zoneReadings).2
        ++ "/" ++ toString zoneReadings.length ++ " zones need watering"),
      zonesChecked := some zoneReadings.length,
      zonesNeedingIrrigation := some (assessIrrigationNeeds envSoilLow farmId zoneReadings).2 })]

/-! ## Market data processor -/

/-- Per-crop base price (src/server.js line 426):
`crop === "maize" ? 70 : crop === "beans" ? 110 : 55`. -/
def cropBasePrice (crop : String) : ℚ :=
  if crop = "maize" then 70 else if crop = "beans" then 110 else 55

/-- The simulated current price of a crop (src/server.js line 427):
`basePrice + (Math.random() - 0.5) * 30`, where `rand` is the
`Math.random()` draw, a value in `[0, 1)`. -/
def simulatedCropPrice (crop : String) (rand : ℚ) : ℚ :=
  cropBasePrice crop + (rand - 1 / 2) * 30

/-- The sell condition of `fetch-market-prices` (src/server.js line 434):
`currentPrice > threshold`. -/
def sellCond (price threshold : ℚ) : Bool := decide (price > threshold)

/-- The hold condition of `fetch-market-prices` (src/server.js line 443):
`currentPrice < threshold * 0.7`. -/
def holdCond (price threshold : ℚ) : Bool := decide (price < threshold * (7 / 10))

/-- A price alert object (src/server.js lines 435-451). -/
structure PriceAlert where
  crop : String
  price : ℚ
  threshold : ℚ
  trend : String
  market : String
  recommendation : String
deriving DecidableEq

/-- `markets[0] || "Nairobi"` (src/server.js lines 440 and 449). -/
def marketHead (markets : List String) : String := jsOrStr markets.head? "Nairobi"

/-- Alerts contributed by one crop (src/server.js lines 434-452): a sell
alert when `price > threshold`, else a hold alert when
`price < threshold * 0.7`, else none. -/
def priceAlertsForCrop (crop : String) (price threshold : ℚ) (market : String) :
    List PriceAlert :=
  if price > threshold then
    [{ crop := crop, price := price, threshold := threshold, trend := "up",
       market := market, recommendation := "Consider selling - good market price!" }]
  else if price < threshold * (7 / 10) then
    [{ crop := crop, price := price, threshold := threshold, trend := "down",
       market := market, recommendation := "Hold stock - wait for better prices" }]
  else []

/-- The per-crop loop of `fetch-market-prices` (src/server.js lines
425-453) over the crops paired with their simulated prices.  `envThresh`
gives the parsed `<CROP>_PRICE_ALERT_THRESHOLD` variable per crop; the
fallback default is `basePrice + 10`. -/
def fetchMarketPricesAlerts (envThresh : String → Option ℚ)
    (pairs : List (String × ℚ)) (markets : List String) : List PriceAlert :=
  pairs.flatMap fun p =>
    priceAlertsForCrop p.1 p.2 (jsOrNum (envThresh p.1) (cropBasePrice p.1 + 10))
      (marketHead markets)

/-- Notification events of the `fetch-market-prices` processor
(src/server.js lines 456-466): one `market_price_alert` per alert, then
exactly one `task_completed` summary. -/
def fetchMarketPricesNotifications (envThresh : String → Option ℚ)
    (pairs : List (String × ℚ)) (markets : List String) : List (String × Details) :=
  (fetchMarketPricesAlerts envThresh pairs markets).map
    (fun a => ("market_price_alert",
      { crop := some a.crop, price := some a.price, threshold := some a.threshold,
        trend := some a.trend, market := some a.market,
        recommendation := some a.recommendation }))
  ++ [("task_completed",
    { taskName := some "Market Price Update",
      status := some ("Checked " ++ toString pairs.length ++ " crops, "
        ++ toString (fetchMarketPricesAlerts envThresh pairs markets).length ++ " alerts"),
      marketsChecked := some markets.length })]

/-! ## Maintenance processor -/

/-- The three outcomes of an equipment health check. -/
inductive EquipmentBand
  | failureAlert
  | maintenanceAlert
  | noAlert
deriving DecidableEq

/-- The banding of `check-equipment-status` (src/server.js lines 489-505):
`health < 20` critical failure, else `health < 40` maintenance required,
else nothing. -/
def classifyEquipmentHealth (health : ℚ) : EquipmentBand :=
  if health < 20 then .failureAlert
  else if health < 40 then .maintenanceAlert
  else .noAlert

/-- An equipment alert object (src/server.js lines 491-504); `health`
carries `health.toFixed(0)`. -/
structure EquipmentAlert where
  farmId : String
  equipment : String
  health : String
deriving DecidableEq

/-- Alerts one equipment item contributes, as a pair
(failure alerts, maintenance alerts) (src/server.js lines 485-505);
`item.replace("-", " ")` replaces only the first hyphen. -/
def checkEquipmentItem (farmId item : String) (health : ℚ) :
    List EquipmentAlert × List EquipmentAlert :=
  let alert : EquipmentAlert :=
    { farmId := farmId, equipment := strReplaceFirst item "-" " ",
      health := jsToFixed0 health }
  if health < 20 then ([alert], [])
  else if health < 40 then ([], [alert])
  else ([], [])

/-! ## SMS processor -/

/-- One entry of `response.SMSMessageData.Recipients` of the SMS
provider. -/
structure ProviderRecipient where
  messageId : Option String := none
  cost : Option String := none
deriving DecidableEq

/-- The `SMSMessageData` of a successful provider response. -/
structure ProviderResponse where
  recipients : List ProviderRecipient
deriving DecidableEq

/-- Result object of the `send-sms` processor (src/server.js lines
555-572). -/
structure SendSmsResult where
  status : String
  provider : String
  response : Option ProviderResponse := none
  messageId : Option String := none
  cost : Option String := none
  error : Option String := none
  phoneNumber : Option String := none
  messageType : Option String := none
deriving DecidableEq

/-- The `send-sms` processor (src/server.js lines 537-574): the adapter
call sits in a try/catch, so a failure is returned as a
`status: "failed"` result and never rethrown; a success is returned as a
`status: "sent"` result with the provider response. -/
def processSendSms (phoneNumber messageType : String)
    (adapter : Except String ProviderResponse) : SendSmsResult :=
  match adapter with
  | .ok r =>
    { status := "sent", provider := "africas_talking", response := some r,
      messageId := (r.recipients.head?).bind (fun rec => rec.messageId),
      cost := (r.recipients.head?).bind (fun rec => rec.cost) }
  | .error e =>
    { status := "failed", provider := "africas_talking", error := some e,
      phoneNumber := some phoneNumber, messageType := some messageType }

/-! ## Notification events the task processors produce -/

/-- The notification events the task processors hand to
`sendTaskNotification`, one constructor per call site in src/server.js
(lines 202, 240, 262, 290, 298, 322, 331, 362, 401, 457, 461, 509, 514,
518).  String fields read from a job payload are arbitrary optional
strings; fields the source passes as literals are those literals. -/
inductive ProducedEvent : String → Details → Prop
  | sensorData (farmId sensorType : Option String) (m t h : ℚ) :
      ProducedEvent "sensor_data_collected"
        { farmId := farmId, sensorType := sensorType, moistureLevel := some m,
          temperature := some t, humidity := some h }
  | irrigationStartedLow (farmId : Option String) (m : ℚ) :
      ProducedEvent "irrigation_started"
        { farmId := farmId, zone := some "zone-a", reason := some "low_soil_moisture",
          moistureLevel := some m, duration := some "30 minutes" }
  | weatherHighTemperature (farmId : Option String) (t : ℚ) :
      ProducedEvent "weather_warning"
        { farmId := farmId, warning := some "High temperature alert",
          temperature := some t,
          forecast := some "Consider shade protection for sensitive crops" }
  | weatherLowHumidity (farmId : Option String) (h : ℚ) :
      ProducedEvent "weather_warning"
        { farmId := farmId, warning := some "Low humidity alert", humidity := some h,
          forecast := some "Increase irrigation frequency" }
  | cropHealthPoor (farmId : Option String) :
      ProducedEvent "weather_warning"
        { farmId := farmId, warning := some "Poor crop health detected",
          forecast := some "Consider nutrient supplementation or pest control" }
  | cropHealthPest (farmId : Option String) :
      ProducedEvent "weather_warning"
        { farmId := farmId, warning := some "High pest activity detected",
          forecast := some "Apply pest control measures immediately" }
  | irrigationCompleted (farmId zone : Option String) (b a : ℚ) :
      ProducedEvent "irrigation_completed"
        { farmId := farmId, zone := zone, beforeLevel := some b,
          afterLevel := some a, duration := some "30 minutes" }
  | assessmentSummary (farmId : Option String) (checked needing : ℕ) :
      ProducedEvent "task_completed"
        { farmId := farmId, taskName := some "Irrigation Assessment",
          status := some (toString needing ++ "/" ++ toString checked
            ++ " zones need watering"),
          zonesChecked := some checked, zonesNeedingIrrigation := some needing }
  | marketSellAlert (crop : String) (p t : ℚ) (market : String) :
      ProducedEvent "market_price_alert"
        { crop := some crop, price := some p, threshold := some t,
          trend := some "up", market := some market,
          recommendation := some "Consider selling - good market price!" }
  | marketHoldAlert (crop : String) (p t : ℚ) (market : String) :
      ProducedEvent "market_price_alert"
        { crop := some crop, price := some p, threshold := some t,
          trend := some "down", market := some market,
          recommendation := some "Hold stock - wait for better prices" }
  | marketSummary (nCrops nAlerts nMarkets : ℕ) :
      ProducedEvent "task_completed"
        { taskName := some "Market Price Update",
          status := some ("Checked " ++ toString nCrops ++ " crops, "
            ++ toString nAlerts ++ " alerts"),
          marketsChecked := some nMarkets }
  | equipmentFailureEvent (farmId : Option String) (equipment healthStr : String) :
      ProducedEvent "equipment_failure"
        { farmId := farmId, equipment := some equipment, health := some healthStr }
  | maintenanceRequiredEvent (farmId : Option String) (equipment healthStr : String) :
      ProducedEvent "maintenance_required"
        { farmId := farmId, equipment := some equipment, health := some healthStr }
  | maintenanceSummary (farmId : Option String) (nItems nAlerts : ℕ) :
      ProducedEvent "task_completed"
        { farmId := farmId, taskName := some "Equipment Maintenance Check",
          status := some (toString nItems ++ " items checked, "
            ++ toString nAlerts ++ " alerts"),
          equipmentChecked := some nItems, alertsGenerated := some nAlerts }
  | systemStatusEvent :
      ProducedEvent "system_status"
        { message := some "System status check requested", systemsHealthy := some true }

/-- The nine task types the switch of `sendTaskNotification` recognises. -/
def knownNotificationKind (taskType : String) : Bool :=
  taskType == "sensor_data_collected" || taskType == "irrigation_started"
    || taskType == "irrigation_completed" || taskType == "market_price_alert"
    || taskType == "maintenance_required" || taskType == "equipment_failure"
    || taskType == "weather_warning" || taskType == "task_completed"
    || taskType == "system_status"

/-! ## Claims -/

/-- C1: the spec says a reading at or above the soil-moisture threshold
produces no `start-irrigation` follow-up, but the condition at
src/server.js lines 249-252 is `(moistureLevel < parseFloat(env)) || 30`,
which is always truthy: a reading of 50 (above the default 30, with the
variable unset, and equally with it set to 30) still enqueues exactly one
follow-up. -/
theorem c1_irrigation_followup_fires_for_every_reading :
    soilMoistureLowCond none 50 = true ∧
    soilMoistureLowCond (some 30) 50 = true ∧
    collectSoilMoistureFollowUps none "farm-001" 50 =
      [{ farmId := "farm-001", zone := "zone-a", reason := "low_soil_moisture",
         moistureLevel := 50 }] := by
  refine ⟨rfl, rfl, rfl⟩

/-- C4: with the simulated moisture fixed at 10 the engine does emit the
`start-irrigation` follow-up for zone-a and the `irrigation_started`
notification, but the rendered message reads `low soil_moisture`:
`String.prototype.replace` with a string pattern replaces only the first
underscore, so the literal text `low soil moisture` the claim requires
never appears. -/
theorem c4_low_moisture_end_to_end_at_ten :
    collectSoilMoistureFollowUps none "farm-001" 10 =
      [{ farmId := "farm-001", zone := "zone-a", reason := "low_soil_moisture",
         moistureLevel := 10 }] ∧
    (collectSoilMoistureNotifications none "farm-001" "soil_moisture" 10 25 60).map
        Prod.fst = ["sensor_data_collected", "irrigation_started"] ∧
    sendTaskNotificationMessage "irrigation_started"
        { farmId := some "farm-001", zone := some "zone-a",
          reason := some "low_soil_moisture", moistureLevel := some 10,
          duration := some "30 minutes" } "10:00:00 AM" =
      some ("💧 IRRIGATION ALERT: Auto-irrigation started in zone-a. "
        ++ "Reason: low soil_moisture. Duration: 30 minutes [Farm: farm-001]") ∧
    strOccurs "low soil moisture"
      ("💧 IRRIGATION ALERT: Auto-irrigation started in zone-a. "
        ++ "Reason: low soil_moisture. Duration: 30 minutes [Farm: farm-001]") = false ∧
    strOccurs "low soil_moisture"
      ("💧 IRRIGATION ALERT: Auto-irrigation started in zone-a. "
        ++ "Reason: low soil_moisture. Duration: 30 minutes [Farm: farm-001]") = true := by
  refine ⟨rfl, rfl, by decide, by decide, by decide⟩

/-- C5: the equipment health bands of `check-equipment-status` partition
`[0, 100)`: `h < 20` gives the failure alert, `20 ≤ h < 40` the
maintenance alert, `h ≥ 40` no alert, and each item contributes exactly
one alert unless its band is `noAlert`. -/
theorem c5_equipment_band_partition (h : ℚ) (h0 : 0 ≤ h) (h100 : h < 100)
    (farmId item : String) :
    (classifyEquipmentHealth h = EquipmentBand.failureAlert ↔ h < 20) ∧
    (classifyEquipmentHealth h = EquipmentBand.maintenanceAlert ↔ 20 ≤ h ∧ h < 40) ∧
    (classifyEquipmentHealth h = EquipmentBand.noAlert ↔ 40 ≤ h) ∧
    ((checkEquipmentItem farmId item h).1.length
        + (checkEquipmentItem farmId item h).2.length =
      if classifyEquipmentHealth h = EquipmentBand.noAlert then 0 else 1) := by
  unfold classifyEquipmentHealth checkEquipmentItem
  split_ifs with h20 h40 <;> refine ⟨?_, ?_, ?_, ?_⟩ <;> simp_all <;> linarith

/-- C5 witness: health 25 sits in the maintenance band. -/
theorem c5_equipment_band_partition_witness :
    (classifyEquipmentHealth 25 = EquipmentBand.failureAlert ↔ (25 : ℚ) < 20) ∧
    (classifyEquipmentHealth 25 = EquipmentBand.maintenanceAlert ↔
      (20 : ℚ) ≤ 25 ∧ (25 : ℚ) < 40) ∧
    (classifyEquipmentHealth 25 = EquipmentBand.noAlert ↔ (40 : ℚ) ≤ 25) ∧
    ((checkEquipmentItem "farm-001" "irrigation-pumps" 25).1.length
        + (checkEquipmentItem "farm-001" "irrigation-pumps" 25).2.length =
      if classifyEquipmentHealth 25 = EquipmentBand.noAlert then 0 else 1) :=
  c5_equipment_band_partition 25 (by norm_num) (by norm_num) "farm-001" "irrigation-pumps"

/-- C8: the `send-sms` processor returns the adapter outcome as a result
object: a failure becomes `status: "failed"` with the error message (and
is never rethrown, the processor being a total function of the adapter
outcome), a success becomes `status: "sent"` with the provider
response. -/
theorem c8_send_sms_captures_failures (phoneNumber messageType e : String)
    (r : ProviderResponse) :
    processSendSms phoneNumber messageType (Except.error e) =
      { status := "failed", provider := "africas_talking", error := some e,
        phoneNumber := some phoneNumber, messageType := some messageType } ∧
    processSendSms phoneNumber messageType (Except.ok r) =
      { status := "sent", provider := "africas_talking", response := some r,
        messageId := (r.recipients.head?).bind (fun rec => rec.messageId),
        cost := (r.recipients.head?).bind (fun rec => rec.cost) } ∧
    ∀ a : Except String ProviderResponse,
      (processSendSms phoneNumber messageType a).status = "sent" ∨
        (processSendSms phoneNumber messageType a).status = "failed" := by
  refine ⟨rfl, rfl, fun a => ?_⟩
  cases a
  · exact Or.inr rfl
  · exact Or.inl rfl

/-- C10: in `start-irrigation`, a truthy (nonzero) `moistureLevel` is used
as `beforeLevel` unchanged; `moistureLevel` equal to 0 or absent falls
back to a fresh simulated value in `[20, 60)`; and `afterLevel` always
exceeds `beforeLevel` by a value in `[20, 50)`. -/
theorem c10_before_after_levels (moistureLevel : Option ℚ) (m rand1 rand2 : ℚ)
    (hr1 : 0 ≤ rand1) (hr1l : rand1 < 1) (hr2 : 0 ≤ rand2) (hr2l : rand2 < 1) :
    (moistureLevel = some m → m ≠ 0 →
      startIrrigationBeforeLevel moistureLevel rand1 = m) ∧
    (moistureLevel = some 0 ∨ moistureLevel = none →
      20 ≤ startIrrigationBeforeLevel moistureLevel rand1 ∧
        startIrrigationBeforeLevel moistureLevel rand1 < 60) ∧
    (20 ≤ startIrrigationAfterLevel (startIrrigationBeforeLevel moistureLevel rand1) rand2
        - startIrrigationBeforeLevel moistureLevel rand1 ∧
      startIrrigationAfterLevel (startIrrigationBeforeLevel moistureLevel rand1) rand2
        - startIrrigationBeforeLevel moistureLevel rand1 < 50) := by
  refine ⟨?_, ?_, ?_⟩
  · rintro rfl hm
    simp [startIrrigationBeforeLevel, hm]
  · rintro (rfl | rfl) <;> simp [startIrrigationBeforeLevel] <;>
      constructor <;> linarith
  · have hd : startIrrigationAfterLevel (startIrrigationBeforeLevel moistureLevel rand1) rand2
        - startIrrigationBeforeLevel moistureLevel rand1 = rand2 * 30 + 20 := by
      unfold startIrrigationAfterLevel; ring
    rw [hd]
    constructor <;> linarith

/-- C10 witness: a job carrying `moistureLevel = 5` keeps it; the
simulated bounds hold for the draws 1/2 and 1/2. -/
theorem c10_before_after_levels_witness :
    (some (5 : ℚ) = some 5 → (5 : ℚ) ≠ 0 →
      startIrrigationBeforeLevel (some 5) (1 / 2) = 5) ∧
    (some (5 : ℚ) = some 0 ∨ some (5 : ℚ) = none →
      20 ≤ startIrrigationBeforeLevel (some 5) (1 / 2) ∧
        startIrrigationBeforeLevel (some 5) (1 / 2) < 60) ∧
    (20 ≤ startIrrigationAfterLevel (startIrrigationBeforeLevel (some 5) (1 / 2)) (1 / 2)
        - startIrrigationBeforeLevel (some 5) (1 / 2) ∧
      startIrrigationAfterLevel (startIrrigationBeforeLevel (some 5) (1 / 2)) (1 / 2)
        - startIrrigationBeforeLevel (some 5) (1 / 2) < 50) :=
  c10_before_after_levels (some 5) 5 (1 / 2) (1 / 2) (by norm_num) (by norm_num)
    (by norm_num) (by norm_num)

/-- C2: the formatter is NOT deterministic in `(kind, details)` alone: the
`sensor_data_collected` and `task_completed` templates interpolate
`new Date().toLocaleTimeString()`, so the same event rendered at two
different clock times yields two different strings. -/
theorem c2_formatter_clock_dependence_counterexample :
    sendTaskNotificationMessage "task_completed"
        { taskName := some "Market Price Update",
          status := some "Checked 3 crops, 0 alerts" } "10:00:00 AM" ≠
      sendTaskNotificationMessage "task_completed"
        { taskName := some "Market Price Update",
          status := some "Checked 3 crops, 0 alerts" } "10:00:05 AM" := by
  decide

set_option maxHeartbeats 1000000 in
/-- C2 (amended): the formatter is deterministic in `(kind, details, render
time)`; in `(kind, details)` alone it is deterministic exactly for the
kinds whose template does not interpolate the clock, i.e. every kind other
than `sensor_data_collected` and `task_completed`. -/
theorem c2_formatter_deterministic_except_clocked_kinds (taskType : String)
    (d : Details) (now1 now2 : String)
    (h1 : taskType ≠ "sensor_data_collected") (h2 : taskType ≠ "task_completed") :
    sendTaskNotificationMessage taskType d now1 =
      sendTaskNotificationMessage taskType d now2 := by
  unfold sendTaskNotificationMessage notificationBody
  split_ifs <;> first
    | rfl
    | exact absurd (by assumption : taskType = "sensor_data_collected") h1
    | exact absurd (by assumption : taskType = "task_completed") h2

/-- C2 witness: a `weather_warning` event renders identically at two
different clock times. -/
theorem c2_formatter_deterministic_witness :
    sendTaskNotificationMessage "weather_warning" { } "10:00:00 AM" =
      sendTaskNotificationMessage "weather_warning" { } "10:00:05 AM" :=
  c2_formatter_deterministic_except_clocked_kinds "weather_warning" { }
    "10:00:00 AM" "10:00:05 AM" (by decide) (by decide)

/-- C3: the formatter is NOT total on every details mapping: the
`irrigation_started` template reads `details.reason.replace(...)` without
a guard, so an event of that kind whose details lack `reason` throws a
`TypeError` (modelled as `none`) instead of producing a string. -/
theorem c3_formatter_throws_counterexample :
    sendTaskNotificationMessage "irrigation_started" { zone := some "zone-a" }
      "10:00:00 AM" = none := by
  decide

set_option maxHeartbeats 1000000 in
/-- C3 (amended): the formatter produces a message for every kind and every
details mapping EXCEPT kind `irrigation_started` with an absent `reason`;
in particular an unrecognised kind always yields the generic fallback
message with the farm suffix. -/
theorem c3_formatter_total_with_reason_guard (taskType : String) (d : Details)
    (now : String)
    (hreason : taskType = "irrigation_started" → d.reason.isSome = true) :
    (sendTaskNotificationMessage taskType d now).isSome = true ∧
    (knownNotificationKind taskType = false →
      sendTaskNotificationMessage taskType d now =
        some (jsOrStr d.customMessage ("📱 Farm notification: " ++ taskType)
          ++ farmSuffix d)) := by
  constructor
  · unfold sendTaskNotificationMessage notificationBody
    split_ifs with e1 e2 <;> try rfl
    have := hreason e2
    cases hr : d.reason with
    | none => rw [hr] at this; simp at this
    | some r => simp [hr]
  · intro hk
    simp only [knownNotificationKind, Bool.or_eq_false_iff, beq_eq_false_iff_ne,
      ne_eq] at hk
    obtain ⟨⟨⟨⟨⟨⟨⟨⟨k1, k2⟩, k3⟩, k4⟩, k5⟩, k6⟩, k7⟩, k8⟩, k9⟩ := hk
    simp only [sendTaskNotificationMessage, notificationBody, if_neg k1, if_neg k2,
      if_neg k3, if_neg k4, if_neg k5, if_neg k6, if_neg k7, if_neg k8, if_neg k9,
      Option.map_some]
    rfl

/-- C3 witness: the unrecognised kind `price_update` renders to the generic
fallback message. -/
theorem c3_formatter_total_witness :
    (sendTaskNotificationMessage "price_update" { } "10:00:00 AM").isSome = true ∧
    (knownNotificationKind "price_update" = false →
      sendTaskNotificationMessage "price_update" { } "10:00:00 AM" =
        some (jsOrStr ({ } : Details).customMessage
          ("📱 Farm notification: " ++ "price_update") ++ farmSuffix { })) :=
  c3_formatter_total_with_reason_guard "price_update" { } "10:00:00 AM"
    (fun h => absurd h (by decide))

/-- C6: every simulated price is at least `basePrice - 15 ≥ 40`, hence
positive, and for a positive price the sell condition `price > threshold`
and the hold condition `price < threshold * 0.7` can never hold together,
whatever the configured threshold (both together would force the price
below a negative `0.7 * threshold`); independently of any bound on the
price, the else-if structure produces at most one alert per crop, and
every `fetch-market-prices` job emits exactly one `task_completed` summary
notification (whose status string reports the crops checked and the alerts
sent). -/
theorem c6_market_price_rule (crop market : String) (rand threshold price : ℚ)
    (hr0 : 0 ≤ rand) (hr1 : rand < 1) (envThresh : String → Option ℚ)
    (pairs : List (String × ℚ)) (markets : List String) :
    (sellCond (simulatedCropPrice crop rand) threshold &&
      holdCond (simulatedCropPrice crop rand) threshold) = false ∧
    (priceAlertsForCrop crop price threshold market).length ≤ 1 ∧
    (fetchMarketPricesNotifications envThresh pairs markets).countP
        (fun n => n.1 == "task_completed") = 1 := by
  refine ⟨?_, ?_, ?_⟩
  · have hp : 40 ≤ simulatedCropPrice crop rand := by
      unfold simulatedCropPrice cropBasePrice
      split_ifs <;> linarith
    by_cases hs : simulatedCropPrice crop rand > threshold
    · have hhold : ¬ simulatedCropPrice crop rand < threshold * (7 / 10) := by
        intro hh
        linarith
      unfold sellCond holdCond
      rw [decide_eq_false hhold, Bool.and_false]
    · unfold sellCond holdCond
      rw [decide_eq_false hs, Bool.false_and]
  · unfold priceAlertsForCrop
    split_ifs <;> simp
  · unfold fetchMarketPricesNotifications
    rw [List.countP_append, List.countP_map]
    simp [Function.comp_def, List.countP_cons]

/-- C6 witness: the maize draw 1/2 prices at exactly the base 70, below the
default threshold 80, and neither condition fires; a job with one crop
emits one summary. -/
theorem c6_market_price_rule_witness :
    (sellCond (simulatedCropPrice "maize" (1 / 2)) 80 &&
      holdCond (simulatedCropPrice "maize" (1 / 2)) 80) = false ∧
    (priceAlertsForCrop "maize" 95 80 "nairobi").length ≤ 1 ∧
    (fetchMarketPricesNotifications (fun _ => none) [("maize", 95)]
        ["nairobi", "mombasa", "kisumu"]).countP
        (fun n => n.1 == "task_completed") = 1 :=
  c6_market_price_rule "maize" "nairobi" (1 / 2) 80 95 (by norm_num) (by norm_num)
    (fun _ => none) [("maize", 95)] ["nairobi", "mombasa", "kisumu"]

/-- C7: every notification event a task processor produces renders
successfully and results in exactly one `send-sms` job, carrying the
rendered message string. -/
theorem c7_one_sms_per_produced_event (farmerPhone taskType : String) (d : Details)
    (now : String) (hp : ProducedEvent taskType d) :
    (sendTaskNotificationMessage taskType d now).isSome = true ∧
    sendTaskNotification farmerPhone taskType d now =
      some [{ phoneNumber := farmerPhone,
              message := (sendTaskNotificationMessage taskType d now).getD "",
              type := taskType }] := by
  cases hp <;> exact ⟨rfl, rfl⟩

/-- C7 witness: an `equipment_failure` event yields exactly one SMS job. -/
theorem c7_one_sms_per_produced_event_witness :
    (sendTaskNotificationMessage "equipment_failure"
        { farmId := some "farm-001", equipment := some "irrigation pumps",
          health := some "15" } "10:00:00 AM").isSome = true ∧
    sendTaskNotification "+254717135176" "equipment_failure"
        { farmId := some "farm-001", equipment := some "irrigation pumps",
          health := some "15" } "10:00:00 AM" =
      some [{ phoneNumber := "+254717135176",
              message := (sendTaskNotificationMessage "equipment_failure"
                { farmId := some "farm-001", equipment := some "irrigation pumps",
                  health := some "15" } "10:00:00 AM").getD "",
              type := "equipment_failure" }] :=
  c7_one_sms_per_produced_event "+254717135176" "equipment_failure" _ "10:00:00 AM"
    (ProducedEvent.equipmentFailureEvent (some "farm-001") "irrigation pumps" "15")

/-- C9: `assess-irrigation-needs` enqueues exactly one `start-irrigation`
follow-up (carrying the reading) for each zone whose reading is below
`parseFloat(env) || 35` — a default of 35, distinct from the collection
path literal 30 — and afterwards emits exactly one `task_completed`
summary whose counts are the zones checked and the zones needing
irrigation. -/
theorem c9_assess_irrigation_needs_spec (envSoilLow : Option ℚ) (farmId : String)
    (zs : List (String × ℚ)) :
    (assessIrrigationNeeds envSoilLow farmId zs).1 =
      (zs.filter fun z => decide (z.2 < jsOrNum envSoilLow 35)).map
        (fun z => { farmId := farmId, zone := z.1, reason := "scheduled_assessment",
                    moistureLevel := z.2 }) ∧
    (assessIrrigationNeeds envSoilLow farmId zs).2 =
      (zs.filter fun z => decide (z.2 < jsOrNum envSoilLow 35)).length ∧
    assessIrrigationNotifications envSoilLow farmId zs =
      [("task_completed",
        { farmId := some farmId, taskName := some "Irrigation Assessment",
          status := some (toString
              (zs.filter fun z => decide (z.2 < jsOrNum envSoilLow 35)).length
            ++ "/" ++ toString zs.length ++ " zones need watering"),
          zonesChecked := some zs.length,
          zonesNeedingIrrigation := some
            (zs.filter fun z => decide (z.2 < jsOrNum envSoilLow 35)).length })] ∧
    jsOrNum none 35 = 35 := by
  have key : ∀ l : List (String × ℚ),
      assessIrrigationNeeds envSoilLow farmId l =
        ((l.filter fun z => decide (z.2 < jsOrNum envSoilLow 35)).map
          (fun z => { farmId := farmId, zone := z.1, reason := "scheduled_assessment",
                      moistureLevel := z.2 }),
          (l.filter fun z => decide (z.2 < jsOrNum envSoilLow 35)).length) := by
    intro l
    induction l with
    | nil => rfl
    | cons z rest ih =>
      by_cases hz : z.2 < jsOrNum envSoilLow 35
      · simp [assessIrrigationNeeds, List.filter_cons, hz, ih]
      · simp [assessIrrigationNeeds, List.filter_cons, hz, ih]
  refine ⟨?_, ?_, ?_, rfl⟩
  · rw [key]
  · rw [key]
  · unfold assessIrrigationNotifications
    rw [key]

end LocciFarm
